import Mathlib

/-!
Shallow embedding of `drivers/gpio/gpio_mchp_xec.c` (Microchip XEC GPIO
driver).  Registers are 32-bit words modelled as `Nat`; every register
write is recorded in a trace of events so that ordering properties of the
driver's write sequences can be stated and proved.

The per-pin control-register field constants (`MCHP_GPIO_CTRL_*`), the
generic GPIO flag encodings (`GPIO_*`), and the interrupt-aggregator
register semantics come from headers that are not part of the sources
(`soc.h`, `drivers/gpio.h`, `gpio_utils.h`); they are modelled from the
spec's register-layout section: bit-packed, non-overlapping fields, a
2-bit pull select, an explicit power-gate "off" encoding, and a multi-value
interrupt-detection field whose power-on default is the level-low encoding.
-/

namespace GpioXec

/-- Model of `BIT(n)` of the C sources. -/
def bit (n : Nat) : Nat := 2 ^ n

/-- All 32 bits set; registers are 32-bit words. -/
def MASK32 : Nat := 2 ^ 32 - 1

/-- The 32-bit complement `~m` used by the read-modify-write sequences. -/
def compl32 (m : Nat) : Nat := MASK32 ^^^ m

/-! ### Control-word field constants

Modelled from the spec: `soc.h` is not under the sources.  The spec fixes
the field inventory (direction, input-pad-disable, power-gate with an
explicit off encoding, 2-bit pull select, buffer type, AOD, multi-value
interrupt-detection with level-low as the power-on default); the concrete
bit positions are chosen non-overlapping, which is all the driver relies
on. -/

def MCHP_GPIO_CTRL_PUD_MASK : Nat := 0x3
def MCHP_GPIO_CTRL_PUD_NONE : Nat := 0x0
def MCHP_GPIO_CTRL_PUD_PU : Nat := 0x1
def MCHP_GPIO_CTRL_PUD_PD : Nat := 0x2
def MCHP_GPIO_CTRL_PWRG_MASK : Nat := 0xC
def MCHP_GPIO_CTRL_PWRG_OFF : Nat := 0x8
def MCHP_GPIO_CTRL_BUFT_MASK : Nat := 0x10
def MCHP_GPIO_CTRL_BUFT_OPENDRAIN : Nat := 0x10
def MCHP_GPIO_CTRL_BUFT_PUSHPULL : Nat := 0x0
def MCHP_GPIO_CTRL_DIR_MASK : Nat := 0x20
def MCHP_GPIO_CTRL_DIR_INPUT : Nat := 0x0
def MCHP_GPIO_CTRL_DIR_OUTPUT : Nat := 0x20
def MCHP_GPIO_CTRL_AOD_MASK : Nat := 0x40
def MCHP_GPIO_CTRL_AOD_DIS : Nat := 0x40
def MCHP_GPIO_CTRL_INPAD_DIS_MASK : Nat := 0x80
def MCHP_GPIO_CTRL_IDET_MASK : Nat := 0x700
/-- Power-on default of the detection field: level-triggered, low. -/
def MCHP_GPIO_CTRL_IDET_LVL_LO : Nat := 0x000
def MCHP_GPIO_CTRL_IDET_LVL_HI : Nat := 0x100
def MCHP_GPIO_CTRL_IDET_DISABLE : Nat := 0x400
def MCHP_GPIO_CTRL_IDET_FEDGE : Nat := 0x500
def MCHP_GPIO_CTRL_IDET_REDGE : Nat := 0x600
def MCHP_GPIO_CTRL_IDET_BEDGE : Nat := 0x700

/-! ### GPIO flag constants

Modelled from the spec: `drivers/gpio.h` is not under the sources.  The
encodings follow Zephyr's convention visible in the driver's usage: each
flag is a distinct bit, `GPIO_OPEN_DRAIN` is the combination
single-ended + line-open-drain, and `GPIO_DISCONNECTED` is the empty flag
set (the "disconnected sentinel"). -/

def GPIO_SINGLE_ENDED : Nat := bit 1
def GPIO_LINE_OPEN_DRAIN : Nat := bit 2
def GPIO_OPEN_DRAIN : Nat := GPIO_SINGLE_ENDED ||| GPIO_LINE_OPEN_DRAIN
def GPIO_PULL_UP : Nat := bit 4
def GPIO_PULL_DOWN : Nat := bit 5
def GPIO_INPUT : Nat := bit 8
def GPIO_OUTPUT : Nat := bit 9
def GPIO_OUTPUT_INIT_LOW : Nat := bit 10
def GPIO_OUTPUT_INIT_HIGH : Nat := bit 11
def GPIO_DISCONNECTED : Nat := 0
def GPIO_INT_ENABLE : Nat := bit 14

/-- Modelled from the spec: interrupt mode values (`enum gpio_int_mode`,
not under the sources).  Kept as `Nat` because the driver's `else` branch
treats every mode other than disabled/level as edge. -/
def GPIO_INT_MODE_DISABLED : Nat := 0
def GPIO_INT_MODE_LEVEL : Nat := 1
def GPIO_INT_MODE_EDGE : Nat := 2

/-- Modelled from the spec: interrupt trigger values (`enum gpio_int_trig`,
not under the sources); kept as `Nat` so that values outside the
enumeration (the `default:` case of the driver's switch) are expressible. -/
def GPIO_INT_TRIG_LOW : Nat := 1
def GPIO_INT_TRIG_HIGH : Nat := 2
def GPIO_INT_TRIG_BOTH : Nat := 3

/-- C error results: the driver returns `0`, `-EINVAL` or `-ENOTSUP`. -/
inductive XecErr where
  | EINVAL
  | ENOTSUP
  deriving Repr, DecidableEq

/-- Per-port static configuration (`struct gpio_xec_config`): the valid-pin
bitmap `valid_ctrl_masks[config->port_num]` and the `flags` field
(`GPIO_INT_ENABLE` when the port has an interrupt line). -/
structure XecConfig where
  validMask : Nat
  flags : Nat
  deriving Repr, DecidableEq

/-- Register state touched by the driver: the per-pin control words
(PCR1 array), the port parallel output and input registers, and the
aggregator (GIRQ) enable and source masks for this port.  Modelled from
the spec for the aggregator part (`MCHP_GIRQ_*` accessors are not under
the sources): enable-set/enable-clear write one bit per pin, source is
write-1-to-clear, result is `source &&& enable`. -/
structure XecState where
  ctrl : Nat → Nat
  outReg : Nat
  inReg : Nat
  girqEn : Nat
  girqSrc : Nat

/-- One register write (or barrier / callback invocation) of the driver,
in program order. -/
inductive Ev where
  /-- write the value `val` to pin `pin`'s control word -/
  | wrCtrl (pin val : Nat)
  /-- write the value `val` to the port parallel output register -/
  | wrOut (val : Nat)
  /-- write `bits` to the aggregator enable-clear register -/
  | wrGirqEnClr (bits : Nat)
  /-- write `bits` to the aggregator enable-set register -/
  | wrGirqEnSet (bits : Nat)
  /-- write `bits` to the write-1-to-clear aggregator source register -/
  | wrGirqSrc (bits : Nat)
  /-- the `__DMB()` memory barrier -/
  | barrier
  /-- invocation of callback handler `h` with argument `arg` -/
  | fire (h arg : Nat)
  deriving Repr, DecidableEq

/-- Accumulated `mask` at the first control-word write of
`gpio_xec_configure` (lines 88–120 of the source): direction,
input-pad-disable, power-gate, pull select, buffer type, AOD. -/
def xec_cfg_mask : Nat :=
  MCHP_GPIO_CTRL_DIR_MASK ||| MCHP_GPIO_CTRL_INPAD_DIS_MASK |||
  MCHP_GPIO_CTRL_PWRG_MASK ||| MCHP_GPIO_CTRL_PUD_MASK |||
  MCHP_GPIO_CTRL_BUFT_MASK ||| MCHP_GPIO_CTRL_AOD_MASK

/-- Accumulated `pcr1` value at the first control-word write of
`gpio_xec_configure` (lines 91–126 of the source): direction = input,
pull select from the flags (pull-up wins), buffer type from the flags,
AOD disabled, and power-gate forced off when `flags == GPIO_DISCONNECTED`
exactly. -/
def xec_cfg_pcr1 (flags : Nat) : Nat :=
  MCHP_GPIO_CTRL_DIR_INPUT
  ||| (if flags &&& GPIO_PULL_UP ≠ 0 then MCHP_GPIO_CTRL_PUD_PU
       else if flags &&& GPIO_PULL_DOWN ≠ 0 then MCHP_GPIO_CTRL_PUD_PD
       else 0)
  ||| (if flags &&& GPIO_OPEN_DRAIN ≠ 0 then MCHP_GPIO_CTRL_BUFT_OPENDRAIN
       else MCHP_GPIO_CTRL_BUFT_PUSHPULL)
  ||| MCHP_GPIO_CTRL_AOD_DIS
  ||| (if flags = GPIO_DISCONNECTED then MCHP_GPIO_CTRL_PWRG_OFF else 0)

/-- Model of `gpio_xec_configure` (lines 62–150 of the source).  Returns the C
result, the final register state, and the trace of register writes in
program order. -/
def gpio_xec_configure (cfg : XecConfig) (s : XecState) (pin flags : Nat) :
    Except XecErr Unit × XecState × List Ev :=
  -- Validate pin number range in terms of current port (line 72)
  if cfg.validMask &&& bit pin = 0 then
    (.error .EINVAL, s, [])
  -- Don't support "open source" mode (lines 77–78)
  else if flags &&& GPIO_SINGLE_ENDED ≠ 0 ∧ flags &&& GPIO_LINE_OPEN_DRAIN = 0 then
    (.error .ENOTSUP, s, [])
  else
    -- first read-modify-write of the control word (line 135)
    let v1 := (s.ctrl pin &&& compl32 xec_cfg_mask) ||| xec_cfg_pcr1 flags
    let s1 : XecState := { s with ctrl := fun p => if p = pin then v1 else s.ctrl p }
    let tr1 : List Ev := [.wrCtrl pin v1]
    if flags &&& GPIO_OUTPUT ≠ 0 then
      -- preload the parallel output bit while still an input (lines 138–142)
      let so :=
        if flags &&& GPIO_OUTPUT_INIT_HIGH ≠ 0 then
          let o := s1.outReg ||| bit pin
          ({ s1 with outReg := o }, tr1 ++ [Ev.wrOut o])
        else if flags &&& GPIO_OUTPUT_INIT_LOW ≠ 0 then
          let o := s1.outReg &&& compl32 (bit pin)
          ({ s1 with outReg := o }, tr1 ++ [Ev.wrOut o])
        else (s1, tr1)
      -- second read-modify-write: direction = output (lines 144–146)
      let v2 := (so.1.ctrl pin &&& compl32 MCHP_GPIO_CTRL_DIR_MASK) |||
                MCHP_GPIO_CTRL_DIR_OUTPUT
      (.ok (),
       { so.1 with ctrl := fun p => if p = pin then v2 else so.1.ctrl p },
       so.2 ++ [.wrCtrl pin v2])
    else
      (.ok (), s1, tr1)

/-- The interrupt-detection field value selected by
`gpio_xec_pin_interrupt_configure` (lines 180–211 of the source), or the
early `-EINVAL` of the `default:` case of its switch (line 206).  Any mode
other than disabled/level is treated as edge, and in level mode any
trigger other than high selects level-low, exactly as the source's
`if`/`else` chain does. -/
def xec_idet (mode trig : Nat) : Except XecErr Nat :=
  if mode = GPIO_INT_MODE_DISABLED then
    -- Explicitly disable interrupts (line 184)
    .ok MCHP_GPIO_CTRL_IDET_DISABLE
  else if mode = GPIO_INT_MODE_LEVEL then
    -- Enable level interrupts (lines 186–192)
    if trig = GPIO_INT_TRIG_HIGH then .ok MCHP_GPIO_CTRL_IDET_LVL_HI
    else .ok MCHP_GPIO_CTRL_IDET_LVL_LO
  else
    -- Enable edge interrupts (lines 193–207)
    if trig = GPIO_INT_TRIG_LOW then .ok MCHP_GPIO_CTRL_IDET_FEDGE
    else if trig = GPIO_INT_TRIG_HIGH then .ok MCHP_GPIO_CTRL_IDET_REDGE
    else if trig = GPIO_INT_TRIG_BOTH then .ok MCHP_GPIO_CTRL_IDET_BEDGE
    else .error .EINVAL

/-- Model of `gpio_xec_pin_interrupt_configure` (lines 152–229 of the source).
Returns the C result, the final register state, and the trace of register
writes and barriers in program order. -/
def gpio_xec_pin_interrupt_configure (cfg : XecConfig) (s : XecState)
    (pin mode trig : Nat) : Except XecErr Unit × XecState × List Ev :=
  -- Validate pin number range in terms of current port (line 164)
  if cfg.validMask &&& bit pin = 0 then
    (.error .EINVAL, s, [])
  -- Check if GPIO port supports interrupts (lines 169–170)
  else if mode ≠ GPIO_INT_MODE_DISABLED ∧ cfg.flags &&& GPIO_INT_ENABLE = 0 then
    (.error .ENOTSUP, s, [])
  else
    -- Disable interrupt in the EC aggregator (line 175)
    let s0 : XecState := { s with girqEn := s.girqEn &&& compl32 (bit pin) }
    let tr0 : List Ev := [.wrGirqEnClr (bit pin)]
    match xec_idet mode trig with
    | .error e => (.error e, s0, tr0)
    | .ok det =>
      -- masked read-modify-write of the detection field, then __DMB()
      -- (lines 216–218)
      let v := (s0.ctrl pin &&& compl32 MCHP_GPIO_CTRL_IDET_MASK) ||| det
      let s1 : XecState := { s0 with ctrl := fun p => if p = pin then v else s0.ctrl p }
      let tr1 : List Ev := tr0 ++ [.wrCtrl pin v, .barrier]
      if mode ≠ GPIO_INT_MODE_DISABLED then
        -- clear stale source, then enable forwarding (lines 224–225)
        let s2 : XecState := { s1 with girqSrc := s1.girqSrc &&& compl32 (bit pin) }
        let s3 : XecState := { s2 with girqEn := s2.girqEn ||| bit pin }
        (.ok (), s3, tr1 ++ [.wrGirqSrc (bit pin), .wrGirqEnSet (bit pin)])
      else
        (.ok (), s1, tr1)

/-- Model of `gpio_xec_port_set_masked_raw` (lines 231–243 of the source). -/
def gpio_xec_port_set_masked_raw (s : XecState) (mask value : Nat) :
    Except XecErr Unit × XecState × List Ev :=
  let o := (s.outReg &&& compl32 mask) ||| (mask &&& value)
  (.ok (), { s with outReg := o }, [.wrOut o])

/-- Model of `gpio_xec_port_set_bits_raw` (lines 245–255 of the source). -/
def gpio_xec_port_set_bits_raw (s : XecState) (mask : Nat) :
    Except XecErr Unit × XecState × List Ev :=
  let o := s.outReg ||| mask
  (.ok (), { s with outReg := o }, [.wrOut o])

/-- Model of `gpio_xec_port_clear_bits_raw` (lines 257–268 of the source). -/
def gpio_xec_port_clear_bits_raw (s : XecState) (mask : Nat) :
    Except XecErr Unit × XecState × List Ev :=
  let o := s.outReg &&& compl32 mask
  (.ok (), { s with outReg := o }, [.wrOut o])

/-- Model of `gpio_xec_port_toggle_bits` (lines 270–280 of the source). -/
def gpio_xec_port_toggle_bits (s : XecState) (mask : Nat) :
    Except XecErr Unit × XecState × List Ev :=
  let o := s.outReg ^^^ mask
  (.ok (), { s with outReg := o }, [.wrOut o])

/-- Model of `gpio_xec_port_get_raw` (lines 282–292 of the source): reads the port
parallel input register. -/
def gpio_xec_port_get_raw (s : XecState) : Except XecErr Unit × Nat :=
  (.ok (), s.inReg)

/-- A registered callback entry (`struct gpio_callback`): its pin-interest
mask and an opaque handler identity. -/
structure CallbackEntry where
  pinMask : Nat
  handler : Nat
  deriving Repr, DecidableEq

/-- Modelled from the spec: `gpio_fire_callbacks` of `gpio_utils.h` is not
under the sources.  Per the spec's dispatch protocol, every registered
entry whose interest mask intersects the captured result value is invoked,
each receiving the full result value (not a per-entry filtered value), in
registry order. -/
def gpio_fire_callbacks (cbs : List CallbackEntry) (pins : Nat) : List Ev :=
  (cbs.filter (fun cb => cb.pinMask &&& pins != 0)).map
    (fun cb => .fire cb.handler pins)

/-- Model of `gpio_gpio_xec_port_isr` (lines 304–319 of the source).  The
aggregator result register is modelled from the spec as the snapshot
`source &&& enable`; the write of `girq_result` to the write-1-to-clear
source register clears exactly those bits, before any callback fires. -/
def gpio_gpio_xec_port_isr (cbs : List CallbackEntry) (s : XecState) :
    XecState × List Ev :=
  let girq_result := s.girqSrc &&& s.girqEn
  ({ s with girqSrc := s.girqSrc &&& compl32 girq_result },
   .wrGirqSrc girq_result :: gpio_fire_callbacks cbs girq_result)

/-- A concrete all-zero register state, for witnesses. -/
def st0 : XecState :=
  { ctrl := fun _ => 0, outReg := 0, inReg := 0, girqEn := 0, girqSrc := 0 }

/-! ### Generic facts about masked read-modify-write -/

/-- A read-modify-write `(a &&& M) ||| P` fully determines any field `F`
disjoint from the kept bits `M`: the field's new value is `P &&& F`. -/
theorem rmw_sets (a M P F : Nat) (h : M &&& F = 0) :
    ((a &&& M) ||| P) &&& F = P &&& F := by
  apply Nat.eq_of_testBit_eq
  intro i
  have hi : (M &&& F).testBit i = false := by rw [h]; exact Nat.zero_testBit i
  rw [Nat.testBit_land] at hi
  simp only [Nat.testBit_land, Nat.testBit_lor]
  cases hF : F.testBit i with
  | false => simp
  | true =>
    rw [hF] at hi
    simp only [Bool.and_true] at hi
    simp [hi]

/-- A read-modify-write `(a &&& M) ||| P` preserves any field `F` kept by
`M` and untouched by the new bits `P`. -/
theorem rmw_preserves (a M P F : Nat) (hM : M &&& F = F) (hP : P &&& F = 0) :
    ((a &&& M) ||| P) &&& F = a &&& F := by
  apply Nat.eq_of_testBit_eq
  intro i
  have hMi : (M &&& F).testBit i = F.testBit i := by rw [hM]
  have hPi : (P &&& F).testBit i = false := by rw [hP]; exact Nat.zero_testBit i
  rw [Nat.testBit_land] at hMi hPi
  simp only [Nat.testBit_land, Nat.testBit_lor]
  cases hF : F.testBit i with
  | false => simp
  | true =>
    rw [hF] at hMi hPi
    simp only [Bool.and_true] at hMi hPi
    simp [hMi, hPi]

/-! ### Field values of the first configure write -/

/-- The first configure write drives direction = input, whatever the
flags. -/
theorem xec_cfg_pcr1_dir (flags : Nat) :
    xec_cfg_pcr1 flags &&& MCHP_GPIO_CTRL_DIR_MASK = MCHP_GPIO_CTRL_DIR_INPUT := by
  unfold xec_cfg_pcr1
  repeat' split
  all_goals decide

/-- The first configure write drives AOD = disabled, whatever the flags. -/
theorem xec_cfg_pcr1_aod (flags : Nat) :
    xec_cfg_pcr1 flags &&& MCHP_GPIO_CTRL_AOD_MASK = MCHP_GPIO_CTRL_AOD_DIS := by
  unfold xec_cfg_pcr1
  repeat' split
  all_goals decide

/-- The first configure write drives power-gate = off exactly when the
flags equal the disconnected sentinel, and clears the field otherwise. -/
theorem xec_cfg_pcr1_pwrg (flags : Nat) :
    xec_cfg_pcr1 flags &&& MCHP_GPIO_CTRL_PWRG_MASK =
      (if flags = GPIO_DISCONNECTED then MCHP_GPIO_CTRL_PWRG_OFF else 0) := by
  unfold xec_cfg_pcr1
  repeat' split
  all_goals decide

/-- The first configure write drives the pull-select field from the flags
alone: pull-up wins, else pull-down, else no pull. -/
theorem xec_cfg_pcr1_pud (flags : Nat) :
    xec_cfg_pcr1 flags &&& MCHP_GPIO_CTRL_PUD_MASK =
      (if flags &&& GPIO_PULL_UP ≠ 0 then MCHP_GPIO_CTRL_PUD_PU
       else if flags &&& GPIO_PULL_DOWN ≠ 0 then MCHP_GPIO_CTRL_PUD_PD
       else MCHP_GPIO_CTRL_PUD_NONE) := by
  unfold xec_cfg_pcr1
  repeat' split
  all_goals decide

/-! ### Claims -/

/-- C1: for every valid pin and every flags set containing OUTPUT that is
accepted, `configure` first commits a read-modify-write forcing
direction = input and AOD = disabled, then (when an initial level is
requested) writes the initial level to the port output register
(OUTPUT_INIT_HIGH sets the pin's bit, OUTPUT_INIT_LOW clears it), and only
afterwards commits a second read-modify-write setting direction = output:
the direction-to-output write is the last event of the trace, so it never
precedes the output-register write. -/
theorem configure_output_write_order
    (cfg : XecConfig) (s : XecState) (pin flags : Nat)
    (hv : cfg.validMask &&& bit pin ≠ 0)
    (hse : ¬(flags &&& GPIO_SINGLE_ENDED ≠ 0 ∧ flags &&& GPIO_LINE_OPEN_DRAIN = 0))
    (hout : flags &&& GPIO_OUTPUT ≠ 0) :
    ∃ v1 v2 mid,
      (gpio_xec_configure cfg s pin flags).2.2 =
        .wrCtrl pin v1 :: mid ++ [.wrCtrl pin v2] ∧
      (gpio_xec_configure cfg s pin flags).1 = .ok () ∧
      v1 &&& MCHP_GPIO_CTRL_DIR_MASK = MCHP_GPIO_CTRL_DIR_INPUT ∧
      v1 &&& MCHP_GPIO_CTRL_AOD_MASK = MCHP_GPIO_CTRL_AOD_DIS ∧
      v2 &&& MCHP_GPIO_CTRL_DIR_MASK = MCHP_GPIO_CTRL_DIR_OUTPUT ∧
      (flags &&& GPIO_OUTPUT_INIT_HIGH ≠ 0 →
        mid = [.wrOut (s.outReg ||| bit pin)]) ∧
      (flags &&& GPIO_OUTPUT_INIT_HIGH = 0 → flags &&& GPIO_OUTPUT_INIT_LOW ≠ 0 →
        mid = [.wrOut (s.outReg &&& compl32 (bit pin))]) ∧
      (flags &&& GPIO_OUTPUT_INIT_HIGH = 0 → flags &&& GPIO_OUTPUT_INIT_LOW = 0 →
        mid = []) := by
  have hmask : compl32 xec_cfg_mask &&& MCHP_GPIO_CTRL_DIR_MASK = 0 := by decide
  have hmask2 : compl32 xec_cfg_mask &&& MCHP_GPIO_CTRL_AOD_MASK = 0 := by decide
  have hdir : compl32 MCHP_GPIO_CTRL_DIR_MASK &&& MCHP_GPIO_CTRL_DIR_MASK = 0 := by
    decide
  simp only [gpio_xec_configure, if_neg hv, if_neg hse, if_pos hout]
  by_cases hH : flags &&& GPIO_OUTPUT_INIT_HIGH ≠ 0
  · simp only [if_pos hH]
    refine ⟨(s.ctrl pin &&& compl32 xec_cfg_mask) ||| xec_cfg_pcr1 flags,
      (((s.ctrl pin &&& compl32 xec_cfg_mask) ||| xec_cfg_pcr1 flags) &&&
        compl32 MCHP_GPIO_CTRL_DIR_MASK) ||| MCHP_GPIO_CTRL_DIR_OUTPUT,
      [.wrOut (s.outReg ||| bit pin)], ?_, ?_, ?_, ?_, ?_, ?_, ?_, ?_⟩
    · simp
    · trivial
    · rw [rmw_sets _ _ _ _ hmask, xec_cfg_pcr1_dir]
    · rw [rmw_sets _ _ _ _ hmask2, xec_cfg_pcr1_aod]
    · rw [rmw_sets _ _ _ _ hdir]
      decide
    · intro _; rfl
    · intro h; exact absurd hH (not_not_intro h)
    · intro h; exact absurd hH (not_not_intro h)
  · by_cases hL : flags &&& GPIO_OUTPUT_INIT_LOW ≠ 0
    · simp only [if_neg hH, if_pos hL]
      refine ⟨(s.ctrl pin &&& compl32 xec_cfg_mask) ||| xec_cfg_pcr1 flags,
        (((s.ctrl pin &&& compl32 xec_cfg_mask) ||| xec_cfg_pcr1 flags) &&&
          compl32 MCHP_GPIO_CTRL_DIR_MASK) ||| MCHP_GPIO_CTRL_DIR_OUTPUT,
        [.wrOut (s.outReg &&& compl32 (bit pin))], ?_, ?_, ?_, ?_, ?_, ?_, ?_, ?_⟩
      · simp
      · trivial
      · rw [rmw_sets _ _ _ _ hmask, xec_cfg_pcr1_dir]
      · rw [rmw_sets _ _ _ _ hmask2, xec_cfg_pcr1_aod]
      · rw [rmw_sets _ _ _ _ hdir]
        decide
      · intro h; exact absurd h hH
      · intro _ _; rfl
      · intro _ h; exact absurd h hL
    · simp only [if_neg hH, if_neg hL]
      refine ⟨(s.ctrl pin &&& compl32 xec_cfg_mask) ||| xec_cfg_pcr1 flags,
        (((s.ctrl pin &&& compl32 xec_cfg_mask) ||| xec_cfg_pcr1 flags) &&&
          compl32 MCHP_GPIO_CTRL_DIR_MASK) ||| MCHP_GPIO_CTRL_DIR_OUTPUT,
        [], ?_, ?_, ?_, ?_, ?_, ?_, ?_, ?_⟩
      · simp
      · trivial
      · rw [rmw_sets _ _ _ _ hmask, xec_cfg_pcr1_dir]
      · rw [rmw_sets _ _ _ _ hmask2, xec_cfg_pcr1_aod]
      · rw [rmw_sets _ _ _ _ hdir]
        decide
      · intro h; exact absurd h hH
      · intro _ h; exact absurd h hL
      · intro _ _; rfl

/-- Witness for the glitch-free ordering theorem at a concrete input:
valid pin 0, flags = OUTPUT + OUTPUT_INIT_HIGH. -/
theorem configure_output_write_order_witness :
    ∃ v1 v2 mid,
      (gpio_xec_configure ⟨1, 0⟩ st0 0 (GPIO_OUTPUT ||| GPIO_OUTPUT_INIT_HIGH)).2.2 =
        .wrCtrl 0 v1 :: mid ++ [.wrCtrl 0 v2] ∧
      (gpio_xec_configure ⟨1, 0⟩ st0 0 (GPIO_OUTPUT ||| GPIO_OUTPUT_INIT_HIGH)).1 =
        .ok () ∧
      v1 &&& MCHP_GPIO_CTRL_DIR_MASK = MCHP_GPIO_CTRL_DIR_INPUT ∧
      v1 &&& MCHP_GPIO_CTRL_AOD_MASK = MCHP_GPIO_CTRL_AOD_DIS ∧
      v2 &&& MCHP_GPIO_CTRL_DIR_MASK = MCHP_GPIO_CTRL_DIR_OUTPUT ∧
      ((GPIO_OUTPUT ||| GPIO_OUTPUT_INIT_HIGH) &&& GPIO_OUTPUT_INIT_HIGH ≠ 0 →
        mid = [.wrOut (st0.outReg ||| bit 0)]) ∧
      ((GPIO_OUTPUT ||| GPIO_OUTPUT_INIT_HIGH) &&& GPIO_OUTPUT_INIT_HIGH = 0 →
        (GPIO_OUTPUT ||| GPIO_OUTPUT_INIT_HIGH) &&& GPIO_OUTPUT_INIT_LOW ≠ 0 →
        mid = [.wrOut (st0.outReg &&& compl32 (bit 0))]) ∧
      ((GPIO_OUTPUT ||| GPIO_OUTPUT_INIT_HIGH) &&& GPIO_OUTPUT_INIT_HIGH = 0 →
        (GPIO_OUTPUT ||| GPIO_OUTPUT_INIT_HIGH) &&& GPIO_OUTPUT_INIT_LOW = 0 →
        mid = []) :=
  configure_output_write_order ⟨1, 0⟩ st0 0 (GPIO_OUTPUT ||| GPIO_OUTPUT_INIT_HIGH)
    (by decide) (by decide) (by decide)

/-- Helper: on every accepted `configure` call, the trace begins with the
first control-word write, whose value is the read-modify-write of
`xec_cfg_mask` with `xec_cfg_pcr1 flags`, and the pin's final control word
is either that value or (when OUTPUT is requested) that value with only
the direction field rewritten to output. -/
theorem configure_accept_shape (cfg : XecConfig) (s : XecState) (pin flags : Nat)
    (hv : cfg.validMask &&& bit pin ≠ 0)
    (hse : ¬(flags &&& GPIO_SINGLE_ENDED ≠ 0 ∧ flags &&& GPIO_LINE_OPEN_DRAIN = 0)) :
    (∃ rest, (gpio_xec_configure cfg s pin flags).2.2 =
      .wrCtrl pin ((s.ctrl pin &&& compl32 xec_cfg_mask) ||| xec_cfg_pcr1 flags) ::
        rest) ∧
    ((gpio_xec_configure cfg s pin flags).2.1.ctrl pin =
        (s.ctrl pin &&& compl32 xec_cfg_mask) ||| xec_cfg_pcr1 flags ∨
     (gpio_xec_configure cfg s pin flags).2.1.ctrl pin =
        ((((s.ctrl pin &&& compl32 xec_cfg_mask) ||| xec_cfg_pcr1 flags) &&&
          compl32 MCHP_GPIO_CTRL_DIR_MASK) ||| MCHP_GPIO_CTRL_DIR_OUTPUT)) := by
  simp only [gpio_xec_configure, if_neg hv, if_neg hse]
  by_cases hout : flags &&& GPIO_OUTPUT ≠ 0
  · simp only [if_pos hout]
    by_cases hH : flags &&& GPIO_OUTPUT_INIT_HIGH ≠ 0
    · simp only [if_pos hH]
      exact ⟨⟨[.wrOut (s.outReg ||| bit pin),
        .wrCtrl pin ((((s.ctrl pin &&& compl32 xec_cfg_mask) ||| xec_cfg_pcr1 flags) &&&
          compl32 MCHP_GPIO_CTRL_DIR_MASK) ||| MCHP_GPIO_CTRL_DIR_OUTPUT)], by simp⟩, Or.inr (by simp)⟩
    · by_cases hL : flags &&& GPIO_OUTPUT_INIT_LOW ≠ 0
      · simp only [if_neg hH, if_pos hL]
        exact ⟨⟨[.wrOut (s.outReg &&& compl32 (bit pin)),
          .wrCtrl pin ((((s.ctrl pin &&& compl32 xec_cfg_mask) ||| xec_cfg_pcr1 flags) &&&
          compl32 MCHP_GPIO_CTRL_DIR_MASK) ||| MCHP_GPIO_CTRL_DIR_OUTPUT)], by simp⟩, Or.inr (by simp)⟩
      · simp only [if_neg hH, if_neg hL]
        exact ⟨⟨[.wrCtrl pin ((((s.ctrl pin &&& compl32 xec_cfg_mask) ||| xec_cfg_pcr1 flags) &&&
          compl32 MCHP_GPIO_CTRL_DIR_MASK) ||| MCHP_GPIO_CTRL_DIR_OUTPUT)], by simp⟩, Or.inr (by simp)⟩
  · simp only [if_neg hout]
    exact ⟨⟨[], by simp⟩, Or.inl (by simp)⟩

/-- C3: a pin outside the port's valid bitmap makes both per-pin
operations return EINVAL (InvalidPin) with an unchanged state and zero
register writes, for every flags/mode/trigger argument. -/
theorem invalid_pin_rejected (cfg : XecConfig) (s : XecState)
    (pin flags mode trig : Nat)
    (hv : cfg.validMask &&& bit pin = 0) :
    gpio_xec_configure cfg s pin flags = (.error .EINVAL, s, []) ∧
    gpio_xec_pin_interrupt_configure cfg s pin mode trig =
      (.error .EINVAL, s, []) := by
  constructor
  · simp only [gpio_xec_configure, if_pos hv]
  · simp only [gpio_xec_pin_interrupt_configure, if_pos hv]

/-- Witness for the invalid-pin theorem: pin 0 on a port whose valid
bitmap is empty. -/
theorem invalid_pin_rejected_witness :
    gpio_xec_configure ⟨0, 0⟩ st0 0 GPIO_OUTPUT = (.error .EINVAL, st0, []) ∧
    gpio_xec_pin_interrupt_configure ⟨0, 0⟩ st0 0 GPIO_INT_MODE_EDGE
      GPIO_INT_TRIG_LOW = (.error .EINVAL, st0, []) :=
  invalid_pin_rejected ⟨0, 0⟩ st0 0 GPIO_OUTPUT GPIO_INT_MODE_EDGE
    GPIO_INT_TRIG_LOW (by decide)

/-- C7 counterexample: for a pin outside the valid bitmap, a single-ended
request without open-drain is rejected with EINVAL (InvalidPin), not
ENOTSUP (UnsupportedMode) — the pin check runs first, so "returns
UnsupportedMode for every pin" fails. -/
theorem single_ended_invalid_pin_cex :
    (gpio_xec_configure ⟨0, 0⟩ st0 0 GPIO_SINGLE_ENDED).1 = .error .EINVAL ∧
    XecErr.EINVAL ≠ XecErr.ENOTSUP :=
  ⟨rfl, by decide⟩

/-- C7 (amended): for every pin valid for the port, `configure` with
SINGLE_ENDED set and LINE_OPEN_DRAIN clear returns ENOTSUP
(UnsupportedMode) with an unchanged state and zero register writes. -/
theorem single_ended_unsupported (cfg : XecConfig) (s : XecState)
    (pin flags : Nat)
    (hv : cfg.validMask &&& bit pin ≠ 0)
    (h1 : flags &&& GPIO_SINGLE_ENDED ≠ 0)
    (h2 : flags &&& GPIO_LINE_OPEN_DRAIN = 0) :
    gpio_xec_configure cfg s pin flags = (.error .ENOTSUP, s, []) := by
  simp only [gpio_xec_configure, if_neg hv, if_pos (And.intro h1 h2)]

/-- Witness for the single-ended theorem: valid pin 0, flags =
SINGLE_ENDED alone. -/
theorem single_ended_unsupported_witness :
    gpio_xec_configure ⟨1, 0⟩ st0 0 GPIO_SINGLE_ENDED =
      (.error .ENOTSUP, st0, []) :=
  single_ended_unsupported ⟨1, 0⟩ st0 0 GPIO_SINGLE_ENDED
    (by decide) (by decide) (by decide)

/-- C8: the first control-word write of an accepted `configure` call
drives the power-gate field to the explicit off encoding exactly when the
flags equal the DISCONNECTED sentinel, and clears the field (pads
operating) for every other flags value. -/
theorem configure_power_gate_iff_disconnected (cfg : XecConfig) (s : XecState)
    (pin flags : Nat)
    (hv : cfg.validMask &&& bit pin ≠ 0)
    (hse : ¬(flags &&& GPIO_SINGLE_ENDED ≠ 0 ∧ flags &&& GPIO_LINE_OPEN_DRAIN = 0)) :
    ∃ v1 rest,
      (gpio_xec_configure cfg s pin flags).2.2 = .wrCtrl pin v1 :: rest ∧
      v1 &&& MCHP_GPIO_CTRL_PWRG_MASK =
        (if flags = GPIO_DISCONNECTED then MCHP_GPIO_CTRL_PWRG_OFF else 0) := by
  have hp : compl32 xec_cfg_mask &&& MCHP_GPIO_CTRL_PWRG_MASK = 0 := by decide
  obtain ⟨⟨rest, hr⟩, -⟩ := configure_accept_shape cfg s pin flags hv hse
  refine ⟨_, rest, hr, ?_⟩
  rw [rmw_sets _ _ _ _ hp, xec_cfg_pcr1_pwrg]

/-- Witness for the power-gate theorem: valid pin 0, flags =
DISCONNECTED. -/
theorem configure_power_gate_iff_disconnected_witness :
    ∃ v1 rest,
      (gpio_xec_configure ⟨1, 0⟩ st0 0 GPIO_DISCONNECTED).2.2 =
        .wrCtrl 0 v1 :: rest ∧
      v1 &&& MCHP_GPIO_CTRL_PWRG_MASK =
        (if GPIO_DISCONNECTED = GPIO_DISCONNECTED
         then MCHP_GPIO_CTRL_PWRG_OFF else 0) :=
  configure_power_gate_iff_disconnected ⟨1, 0⟩ st0 0 GPIO_DISCONNECTED
    (by decide) (by decide)

/-- C10: after every accepted `configure` call, the pull-select field of
the pin's control word is a function of the flags alone: pull-up wins over
pull-down, else pull-down, else the explicit no-pull encoding. -/
theorem configure_pull_select (cfg : XecConfig) (s : XecState)
    (pin flags : Nat)
    (hv : cfg.validMask &&& bit pin ≠ 0)
    (hse : ¬(flags &&& GPIO_SINGLE_ENDED ≠ 0 ∧ flags &&& GPIO_LINE_OPEN_DRAIN = 0)) :
    (gpio_xec_configure cfg s pin flags).2.1.ctrl pin &&& MCHP_GPIO_CTRL_PUD_MASK =
      (if flags &&& GPIO_PULL_UP ≠ 0 then MCHP_GPIO_CTRL_PUD_PU
       else if flags &&& GPIO_PULL_DOWN ≠ 0 then MCHP_GPIO_CTRL_PUD_PD
       else MCHP_GPIO_CTRL_PUD_NONE) := by
  have hp : compl32 xec_cfg_mask &&& MCHP_GPIO_CTRL_PUD_MASK = 0 := by decide
  have hq : compl32 MCHP_GPIO_CTRL_DIR_MASK &&& MCHP_GPIO_CTRL_PUD_MASK =
      MCHP_GPIO_CTRL_PUD_MASK := by decide
  have hr : MCHP_GPIO_CTRL_DIR_OUTPUT &&& MCHP_GPIO_CTRL_PUD_MASK = 0 := by decide
  obtain ⟨-, hc⟩ := configure_accept_shape cfg s pin flags hv hse
  rcases hc with h | h <;> rw [h]
  · rw [rmw_sets _ _ _ _ hp, xec_cfg_pcr1_pud]
  · rw [rmw_preserves _ _ _ _ hq hr, rmw_sets _ _ _ _ hp, xec_cfg_pcr1_pud]

/-- Witness for the pull-select theorem: valid pin 0, both pull flags set
(pull-up wins). -/
theorem configure_pull_select_witness :
    (gpio_xec_configure ⟨1, 0⟩ st0 0
        (GPIO_PULL_UP ||| GPIO_PULL_DOWN)).2.1.ctrl 0 &&&
      MCHP_GPIO_CTRL_PUD_MASK =
      (if (GPIO_PULL_UP ||| GPIO_PULL_DOWN) &&& GPIO_PULL_UP ≠ 0
       then MCHP_GPIO_CTRL_PUD_PU
       else if (GPIO_PULL_UP ||| GPIO_PULL_DOWN) &&& GPIO_PULL_DOWN ≠ 0
       then MCHP_GPIO_CTRL_PUD_PD
       else MCHP_GPIO_CTRL_PUD_NONE) :=
  configure_pull_select ⟨1, 0⟩ st0 0 (GPIO_PULL_UP ||| GPIO_PULL_DOWN)
    (by decide) (by decide)

/-- Helper: the only early error of the detection-field selection is the
EINVAL of the edge switch's default case. -/
theorem xec_idet_error (mode trig : Nat) (e : XecErr)
    (h : xec_idet mode trig = .error e) : e = XecErr.EINVAL := by
  unfold xec_idet at h
  repeat' split at h
  all_goals simp_all

/-- Helper: the detection-field selection fails only in edge mode
(mode neither disabled nor level) with a trigger outside
{LOW, HIGH, BOTH}. -/
theorem xec_idet_error_shape (mode trig : Nat) (e : XecErr)
    (h : xec_idet mode trig = .error e) :
    mode ≠ GPIO_INT_MODE_DISABLED ∧ mode ≠ GPIO_INT_MODE_LEVEL ∧
    trig ≠ GPIO_INT_TRIG_LOW ∧ trig ≠ GPIO_INT_TRIG_HIGH ∧
    trig ≠ GPIO_INT_TRIG_BOTH := by
  unfold xec_idet at h
  repeat' split at h
  all_goals simp_all

/-- C6: for every valid pin and every trigger argument, `configure_interrupt`
with mode = Disabled succeeds, and its single control-word write programs
the explicit disabled encoding into the detection field — an encoding
distinct from the power-on level-low default — with no aggregator
source-clear or enable-set write. -/
theorem interrupt_disable_explicit (cfg : XecConfig) (s : XecState)
    (pin trig : Nat)
    (hv : cfg.validMask &&& bit pin ≠ 0) :
    ∃ v,
      (gpio_xec_pin_interrupt_configure cfg s pin GPIO_INT_MODE_DISABLED trig).1 =
        .ok () ∧
      (gpio_xec_pin_interrupt_configure cfg s pin GPIO_INT_MODE_DISABLED trig).2.2 =
        [.wrGirqEnClr (bit pin), .wrCtrl pin v, .barrier] ∧
      v &&& MCHP_GPIO_CTRL_IDET_MASK = MCHP_GPIO_CTRL_IDET_DISABLE ∧
      (gpio_xec_pin_interrupt_configure cfg s pin GPIO_INT_MODE_DISABLED
        trig).2.1.ctrl pin = v ∧
      MCHP_GPIO_CTRL_IDET_DISABLE ≠ MCHP_GPIO_CTRL_IDET_LVL_LO := by
  have hcap : ¬(GPIO_INT_MODE_DISABLED ≠ GPIO_INT_MODE_DISABLED ∧
      cfg.flags &&& GPIO_INT_ENABLE = 0) := by simp
  have hid : xec_idet GPIO_INT_MODE_DISABLED trig =
      .ok MCHP_GPIO_CTRL_IDET_DISABLE := rfl
  have hmask : compl32 MCHP_GPIO_CTRL_IDET_MASK &&& MCHP_GPIO_CTRL_IDET_MASK = 0 := by
    decide
  simp only [gpio_xec_pin_interrupt_configure, if_neg hv, if_neg hcap, hid]
  refine ⟨((s.ctrl pin &&& compl32 MCHP_GPIO_CTRL_IDET_MASK) |||
    MCHP_GPIO_CTRL_IDET_DISABLE), ?_, ?_, ?_, ?_, ?_⟩
  · simp
  · simp
  · rw [rmw_sets _ _ _ _ hmask]
    decide
  · simp
  · decide

/-- Witness for the explicit-disable theorem: valid pin 0, trigger HIGH,
on a port without interrupt capability (mode = Disabled must still
succeed). -/
theorem interrupt_disable_explicit_witness :
    ∃ v,
      (gpio_xec_pin_interrupt_configure ⟨1, 0⟩ st0 0 GPIO_INT_MODE_DISABLED
        GPIO_INT_TRIG_HIGH).1 = .ok () ∧
      (gpio_xec_pin_interrupt_configure ⟨1, 0⟩ st0 0 GPIO_INT_MODE_DISABLED
        GPIO_INT_TRIG_HIGH).2.2 = [.wrGirqEnClr (bit 0), .wrCtrl 0 v, .barrier] ∧
      v &&& MCHP_GPIO_CTRL_IDET_MASK = MCHP_GPIO_CTRL_IDET_DISABLE ∧
      (gpio_xec_pin_interrupt_configure ⟨1, 0⟩ st0 0 GPIO_INT_MODE_DISABLED
        GPIO_INT_TRIG_HIGH).2.1.ctrl 0 = v ∧
      MCHP_GPIO_CTRL_IDET_DISABLE ≠ MCHP_GPIO_CTRL_IDET_LVL_LO :=
  interrupt_disable_explicit ⟨1, 0⟩ st0 0 GPIO_INT_TRIG_HIGH (by decide)

/-- C4: every successful `configure_interrupt` call performs, in order:
the aggregator enable-clear write, the detection-mode control-word write,
the memory barrier, and — exactly when mode is not Disabled — the
source-bit clear followed by the enable-set.  In particular the enable bit
is only set after the detection mode is committed (plus barrier) and the
stale source bit is cleared, and it is cleared before the detection mode
is reprogrammed. -/
theorem interrupt_enable_last_in_order (cfg : XecConfig) (s : XecState)
    (pin mode trig : Nat)
    (hok : (gpio_xec_pin_interrupt_configure cfg s pin mode trig).1 = .ok ()) :
    ∃ v,
      (gpio_xec_pin_interrupt_configure cfg s pin mode trig).2.2 =
        [.wrGirqEnClr (bit pin), .wrCtrl pin v, .barrier] ++
        (if mode ≠ GPIO_INT_MODE_DISABLED
         then [.wrGirqSrc (bit pin), .wrGirqEnSet (bit pin)] else []) := by
  by_cases hv : cfg.validMask &&& bit pin = 0
  · exfalso
    simp [gpio_xec_pin_interrupt_configure, if_pos hv] at hok
  by_cases hcap : mode ≠ GPIO_INT_MODE_DISABLED ∧ cfg.flags &&& GPIO_INT_ENABLE = 0
  · exfalso
    simp [gpio_xec_pin_interrupt_configure, if_neg hv, if_pos hcap] at hok
  rcases hid : xec_idet mode trig with e | det
  · exfalso
    simp [gpio_xec_pin_interrupt_configure, if_neg hv, if_neg hcap, hid] at hok
  simp only [gpio_xec_pin_interrupt_configure, if_neg hv, if_neg hcap, hid]
  by_cases hm : mode ≠ GPIO_INT_MODE_DISABLED
  · simp only [if_pos hm]
    exact ⟨(s.ctrl pin &&& compl32 MCHP_GPIO_CTRL_IDET_MASK) ||| det, by simp⟩
  · simp only [if_neg hm]
    exact ⟨(s.ctrl pin &&& compl32 MCHP_GPIO_CTRL_IDET_MASK) ||| det, by simp⟩

/-- Witness for the enable-ordering theorem: valid pin 0 on an
interrupt-capable port, level/high interrupt. -/
theorem interrupt_enable_last_in_order_witness :
    ∃ v,
      (gpio_xec_pin_interrupt_configure ⟨1, GPIO_INT_ENABLE⟩ st0 0
        GPIO_INT_MODE_LEVEL GPIO_INT_TRIG_HIGH).2.2 =
        [.wrGirqEnClr (bit 0), .wrCtrl 0 v, .barrier] ++
        (if GPIO_INT_MODE_LEVEL ≠ GPIO_INT_MODE_DISABLED
         then [.wrGirqSrc (bit 0), .wrGirqEnSet (bit 0)] else []) :=
  interrupt_enable_last_in_order ⟨1, GPIO_INT_ENABLE⟩ st0 0
    GPIO_INT_MODE_LEVEL GPIO_INT_TRIG_HIGH rfl

/-- C2 counterexample: on the InvalidTrigger path (valid pin, edge mode,
trigger value 0, outside {LOW, HIGH, BOTH}), `configure_interrupt` returns
EINVAL only after having already performed the aggregator enable-clear
register write — so "no register write is performed before the error is
returned" fails. -/
theorem invalid_trigger_write_before_error_cex :
    (gpio_xec_pin_interrupt_configure ⟨1, GPIO_INT_ENABLE⟩ st0 0
      GPIO_INT_MODE_EDGE 0).1 = .error .EINVAL ∧
    (gpio_xec_pin_interrupt_configure ⟨1, GPIO_INT_ENABLE⟩ st0 0
      GPIO_INT_MODE_EDGE 0).2.2 = [.wrGirqEnClr (bit 0)] :=
  ⟨rfl, rfl⟩

/-- C2 (amended): every erroring `configure` call performs zero register
writes and leaves the state unchanged.  For `configure_interrupt`,
InvalidPin (pin outside the valid bitmap) and UnsupportedMode (mode not
Disabled on a non-interrupt-capable port) are detected before any register
write, with the state unchanged; on the InvalidTrigger path (valid pin,
capable port, mode neither Disabled nor Level, trigger outside
{LOW, HIGH, BOTH}) the call errors with EINVAL only after the aggregator
enable-clear write has been performed, and that write is the whole trace;
and past the pin and capability checks no error other than that
InvalidTrigger shape exists. -/
theorem errors_precede_register_writes (cfg : XecConfig) (s : XecState)
    (pin flags mode trig : Nat) :
    (∀ e, (gpio_xec_configure cfg s pin flags).1 = .error e →
      gpio_xec_configure cfg s pin flags = (.error e, s, [])) ∧
    (cfg.validMask &&& bit pin = 0 →
      gpio_xec_pin_interrupt_configure cfg s pin mode trig =
        (.error .EINVAL, s, [])) ∧
    (cfg.validMask &&& bit pin ≠ 0 → mode ≠ GPIO_INT_MODE_DISABLED →
      cfg.flags &&& GPIO_INT_ENABLE = 0 →
      gpio_xec_pin_interrupt_configure cfg s pin mode trig =
        (.error .ENOTSUP, s, [])) ∧
    (cfg.validMask &&& bit pin ≠ 0 → cfg.flags &&& GPIO_INT_ENABLE ≠ 0 →
      mode ≠ GPIO_INT_MODE_DISABLED → mode ≠ GPIO_INT_MODE_LEVEL →
      trig ≠ GPIO_INT_TRIG_LOW → trig ≠ GPIO_INT_TRIG_HIGH →
      trig ≠ GPIO_INT_TRIG_BOTH →
      (gpio_xec_pin_interrupt_configure cfg s pin mode trig).1 =
        .error .EINVAL ∧
      (gpio_xec_pin_interrupt_configure cfg s pin mode trig).2.2 =
        [.wrGirqEnClr (bit pin)]) ∧
    (∀ e, cfg.validMask &&& bit pin ≠ 0 →
      ¬(mode ≠ GPIO_INT_MODE_DISABLED ∧ cfg.flags &&& GPIO_INT_ENABLE = 0) →
      (gpio_xec_pin_interrupt_configure cfg s pin mode trig).1 = .error e →
      (e = XecErr.EINVAL ∧ mode ≠ GPIO_INT_MODE_DISABLED ∧
       mode ≠ GPIO_INT_MODE_LEVEL ∧ trig ≠ GPIO_INT_TRIG_LOW ∧
       trig ≠ GPIO_INT_TRIG_HIGH ∧ trig ≠ GPIO_INT_TRIG_BOTH ∧
       (gpio_xec_pin_interrupt_configure cfg s pin mode trig).2.2 =
         [.wrGirqEnClr (bit pin)])) := by
  refine ⟨?_, ?_, ?_, ?_, ?_⟩
  · intro e he
    by_cases hv : cfg.validMask &&& bit pin = 0
    · simp only [gpio_xec_configure, if_pos hv] at he ⊢
      simp only [Except.error.injEq] at he
      rw [he]
    · by_cases hs : flags &&& GPIO_SINGLE_ENDED ≠ 0 ∧ flags &&& GPIO_LINE_OPEN_DRAIN = 0
      · simp only [gpio_xec_configure, if_neg hv, if_pos hs] at he ⊢
        simp only [Except.error.injEq] at he
        rw [he]
      · exfalso
        simp only [gpio_xec_configure, if_neg hv, if_neg hs] at he
        by_cases hout : flags &&& GPIO_OUTPUT ≠ 0
        · simp [if_pos hout] at he
        · simp [if_neg hout] at he
  · intro hv
    simp only [gpio_xec_pin_interrupt_configure, if_pos hv]
  · intro hv hm hcap
    simp only [gpio_xec_pin_interrupt_configure, if_neg hv,
      if_pos (And.intro hm hcap)]
  · intro hv hce hm1 hm2 ht1 ht2 ht3
    have hcap : ¬(mode ≠ GPIO_INT_MODE_DISABLED ∧
        cfg.flags &&& GPIO_INT_ENABLE = 0) := fun h => hce h.2
    have hid : xec_idet mode trig = .error .EINVAL := by
      unfold xec_idet
      rw [if_neg hm1, if_neg hm2, if_neg ht1, if_neg ht2, if_neg ht3]
    simp only [gpio_xec_pin_interrupt_configure, if_neg hv, if_neg hcap, hid]
    exact ⟨by trivial, by trivial⟩
  · intro e hv hcap he
    rcases hid : xec_idet mode trig with e2 | det
    · have hsh := xec_idet_error_shape mode trig e2 hid
      have he2 : e = e2 := by
        simp only [gpio_xec_pin_interrupt_configure, if_neg hv, if_neg hcap,
          hid] at he
        simp only [Except.error.injEq] at he
        exact he.symm
      refine ⟨he2 ▸ xec_idet_error mode trig e2 hid, hsh.1, hsh.2.1,
        hsh.2.2.1, hsh.2.2.2.1, hsh.2.2.2.2, ?_⟩
      simp [gpio_xec_pin_interrupt_configure, if_neg hv, if_neg hcap, hid]
    · exfalso
      simp only [gpio_xec_pin_interrupt_configure, if_neg hv, if_neg hcap,
        hid] at he
      by_cases hm : mode ≠ GPIO_INT_MODE_DISABLED
      · simp [if_pos hm] at he
      · simp [if_neg hm] at he

/-- Witness for the amended error-discipline theorem at concrete inputs:
configure and configure_interrupt on an invalid pin error with zero
writes, and on a valid pin of a capable port with edge mode and trigger 0
(outside the enumeration) the call errors with exactly the enable-clear
write in its trace. -/
theorem errors_precede_register_writes_witness :
    gpio_xec_configure ⟨0, 0⟩ st0 0 GPIO_INPUT = (.error .EINVAL, st0, []) ∧
    gpio_xec_pin_interrupt_configure ⟨0, 0⟩ st0 0 GPIO_INT_MODE_EDGE
      GPIO_INT_TRIG_LOW = (.error .EINVAL, st0, []) ∧
    gpio_xec_pin_interrupt_configure ⟨1, 0⟩ st0 0 GPIO_INT_MODE_LEVEL
      GPIO_INT_TRIG_HIGH = (.error .ENOTSUP, st0, []) ∧
    ((gpio_xec_pin_interrupt_configure ⟨1, GPIO_INT_ENABLE⟩ st0 0
        GPIO_INT_MODE_EDGE 0).1 = .error .EINVAL ∧
     (gpio_xec_pin_interrupt_configure ⟨1, GPIO_INT_ENABLE⟩ st0 0
        GPIO_INT_MODE_EDGE 0).2.2 = [.wrGirqEnClr (bit 0)]) :=
  ⟨(errors_precede_register_writes ⟨0, 0⟩ st0 0 GPIO_INPUT GPIO_INT_MODE_EDGE
      GPIO_INT_TRIG_LOW).1 XecErr.EINVAL rfl,
   (errors_precede_register_writes ⟨0, 0⟩ st0 0 GPIO_INPUT GPIO_INT_MODE_EDGE
      GPIO_INT_TRIG_LOW).2.1 (by decide),
   (errors_precede_register_writes ⟨1, 0⟩ st0 0 GPIO_INPUT GPIO_INT_MODE_LEVEL
      GPIO_INT_TRIG_HIGH).2.2.1 (by decide) (by decide) (by decide),
   (errors_precede_register_writes ⟨1, GPIO_INT_ENABLE⟩ st0 0 GPIO_INPUT
      GPIO_INT_MODE_EDGE 0).2.2.2.1 (by decide) (by decide) (by decide)
     (by decide) (by decide) (by decide) (by decide)⟩

/-- C5: in interrupt dispatch with aggregator result snapshot
`R = source &&& enable`, the source register is cleared for exactly the
bits of `R` as the first event, every later event is a handler invocation
carrying the full value `R`, and the invoked handlers are exactly those of
registered entries whose interest mask intersects `R`. -/
theorem isr_dispatch_exact (cbs : List CallbackEntry) (s : XecState) :
    ∃ rest,
      (gpio_gpio_xec_port_isr cbs s).2 =
        .wrGirqSrc (s.girqSrc &&& s.girqEn) :: rest ∧
      (gpio_gpio_xec_port_isr cbs s).1.girqSrc =
        s.girqSrc &&& compl32 (s.girqSrc &&& s.girqEn) ∧
      (∀ ev ∈ rest, ∃ hd, ev = Ev.fire hd (s.girqSrc &&& s.girqEn)) ∧
      (∀ hd a, Ev.fire hd a ∈ rest ↔
        (a = s.girqSrc &&& s.girqEn ∧
         ∃ cb ∈ cbs, cb.handler = hd ∧
           cb.pinMask &&& (s.girqSrc &&& s.girqEn) ≠ 0)) := by
  refine ⟨gpio_fire_callbacks cbs (s.girqSrc &&& s.girqEn), rfl, rfl, ?_, ?_⟩
  · intro ev hev
    simp only [gpio_fire_callbacks, List.mem_map] at hev
    obtain ⟨cb, -, h⟩ := hev
    exact ⟨cb.handler, h.symm⟩
  · intro hd a
    simp only [gpio_fire_callbacks, List.mem_map, List.mem_filter, bne_iff_ne,
      ne_eq, Ev.fire.injEq]
    constructor
    · rintro ⟨cb, ⟨hmem, hne⟩, hh, ha⟩
      exact ⟨ha.symm, cb, hmem, hh, hne⟩
    · rintro ⟨ha, cb, hmem, hh, hne⟩
      exact ⟨cb, ⟨hmem, hne⟩, hh, ha.symm⟩

/-- Witness for the dispatch theorem: two entries, masks 1 and 2, with
source = 3 and enable = 1, so the result snapshot is 1 and only the first
entry fires. -/
theorem isr_dispatch_exact_witness :
    ∃ rest,
      (gpio_gpio_xec_port_isr [⟨1, 10⟩, ⟨2, 11⟩]
        ⟨fun _ => 0, 0, 0, 1, 3⟩).2 =
        .wrGirqSrc ((3 : Nat) &&& 1) :: rest ∧
      (gpio_gpio_xec_port_isr [⟨1, 10⟩, ⟨2, 11⟩]
        ⟨fun _ => 0, 0, 0, 1, 3⟩).1.girqSrc = 3 &&& compl32 (3 &&& 1) ∧
      (∀ ev ∈ rest, ∃ hd, ev = Ev.fire hd ((3 : Nat) &&& 1)) ∧
      (∀ hd a, Ev.fire hd a ∈ rest ↔
        (a = (3 : Nat) &&& 1 ∧
         ∃ cb ∈ ([⟨1, 10⟩, ⟨2, 11⟩] : List CallbackEntry), cb.handler = hd ∧
           cb.pinMask &&& ((3 : Nat) &&& 1) ≠ 0)) :=
  isr_dispatch_exact [⟨1, 10⟩, ⟨2, 11⟩] ⟨fun _ => 0, 0, 0, 1, 3⟩

/-- C9: `toggle_bits` is an involution on the port output register:
applying it twice with the same mask restores the full register state, and
each call succeeds. -/
theorem toggle_bits_involution (s : XecState) (m : Nat) :
    (gpio_xec_port_toggle_bits
      (gpio_xec_port_toggle_bits s m).2.1 m).2.1 = s ∧
    (gpio_xec_port_toggle_bits s m).1 = .ok () := by
  constructor
  · show ({ s with outReg := s.outReg ^^^ m ^^^ m } : XecState) = s
    have h : s.outReg ^^^ m ^^^ m = s.outReg := by
      rw [Nat.xor_assoc, Nat.xor_self, Nat.xor_zero]
    rw [h]
  · rfl

end GpioXec
